import Mathlib

/-!
Verification of the build-configuration resolver in `tags/pyclp_0_2/setup.py`.

The script resolves an ECLiPSe installation root (from the `ECLIPSEDIR`
environment variable, or by interactively prompting until an existing path is
supplied), maps the running platform to an architecture tag, derives
include/library search paths with `os.path.join`, and declares one Cython
extension module plus packaging arguments.

The embedding below models:
  * the fragment of POSIX `os.path.join` the script exercises (`pjoin2`,
    `pjoin3`), following CPython's `posixpath.join`;
  * the interactive acquisition loop (`promptLoop`), with the filesystem
    abstracted as an existence oracle `fsExists : String → Bool` (the script
    only ever calls `os.path.exists`) and the operator's answers as a finite
    list of inputs (an empty remainder models the loop never exiting);
  * the `ECLIPSEDIR` branch (`resolveRoot`), the platform dispatch (`archOf`),
    the `Extension(...)` call (`mkExtension`) and the `setup(...)` call
    (`mkSetup`);
  * the whole script (`runScript`), which performs root acquisition first and
    platform dispatch second, exactly as the source does.
-/

namespace PyCLP

/-- Whether a path string ends with the POSIX separator, as tested by
`posixpath.join` via `path.endswith(sep)`. -/
def endsSep (s : String) : Bool := s.data.getLast? == some '/'

/-- Whether a path string starts with the POSIX separator, as tested by
`posixpath.join` via `b.startswith(sep)`. -/
def startsSep (s : String) : Bool := s.data.head? == some '/'

/-- One folding step of CPython's `posixpath.join`: an absolute component
replaces the accumulated path; otherwise the component is appended, inserting
`/` unless the accumulated path is empty or already ends with `/`. -/
def pjoin2 (path b : String) : String :=
  if startsSep b then b
  else if path = "" ∨ endsSep path = true then path ++ b
  else path ++ "/" ++ b

/-- `os.path.join(a, b, c)` on POSIX, as used at lines 53-54 of `setup.py`. -/
def pjoin3 (a b c : String) : String := pjoin2 (pjoin2 a b) c

/-- The `distutils` `Extension(...)` record, restricted to the fields the
script passes at lines 55-60. -/
structure Extension where
  name : String
  sources : List String
  library_dirs : List String
  libraries : List String
  include_dirs : List String
deriving DecidableEq

/-- The `Extension('pyclp.pyclp', ...)` call of `setup.py` lines 53-60:
`eclise_include_path = join(eclipsedir, 'include', arch)`,
`eclipse_lib_path = join(eclipsedir, 'lib', arch)`, and the literal
module name, source list, libraries and local include directory. -/
def mkExtension (eclipsedir arch : String) : Extension :=
  { name := "pyclp.pyclp"
    sources := ["src/pyclp/pyclp.pyx"]
    library_dirs := [pjoin3 eclipsedir "lib" arch]
    libraries := ["eclipse"]
    include_dirs := [pjoin3 eclipsedir "include" arch, "src/pyclp/"] }

/-- The packaging arguments of the `setup(...)` call, restricted to the fields
the claims mention: `ext_modules`, `package_dir={'': 'src'}`, `packages`. -/
structure SetupArgs where
  ext_modules : List Extension
  package_dir : String
  packages : List String
deriving DecidableEq

/-- The `setup(..., ext_modules=[pyclp_module], package_dir=..., packages=...)`
call of `setup.py` lines 62-73. -/
def mkSetup (eclipsedir arch : String) : SetupArgs :=
  { ext_modules := [mkExtension eclipsedir arch]
    package_dir := "src"
    packages := ["pyclp"] }

/-- The `while(1)` acquisition loop of `setup.py` lines 35-41: each prompt
consumes one operator input; an input whose path exists breaks the loop,
otherwise `Invalid Path` is printed and the loop repeats.  The result is the
accepted path together with the list of printed diagnostics; `none` means the
supplied inputs were exhausted without an existing path, i.e. within the given
interaction prefix the loop never exits. -/
def promptLoop (fsExists : String → Bool) : List String → Option (String × List String)
  | [] => none
  | x :: xs =>
    if fsExists x then some (x, [])
    else (promptLoop fsExists xs).map fun r => (r.1, "Invalid Path" :: r.2)

/-- Lines 34-43 of `setup.py`: if `"ECLIPSEDIR" not in environ` run the prompt
loop, else take `environ["ECLIPSEDIR"]` verbatim.  The result carries the
resolved root, the number of prompts issued and the printed diagnostics. -/
def resolveRoot (env : List (String × String)) (fsExists : String → Bool)
    (inputs : List String) : Option (String × Nat × List String) :=
  match env.lookup "ECLIPSEDIR" with
  | some v => some (v, 0, [])
  | none => (promptLoop fsExists inputs).map fun r => (r.1, r.2.length + 1, r.2)

/-- Lines 45-51 of `setup.py`: `platform.system()` dispatch.  `Linux` and
`Windows` map to their architecture tags; anything else prints
`Platform not supported` and raises. -/
def archOf (sys : String) : Except String String :=
  if sys = "Linux" then Except.ok "i386_linux"
  else if sys = "Windows" then Except.ok "i386_nt"
  else Except.error "Platform not supported"

/-- Observable outcome of one run of the script on a given environment,
platform string, filesystem oracle and operator-input prefix. -/
inductive Outcome where
  | blocked
  | raised (prompts : Nat) (printed : List String)
  | done (prompts : Nat) (printed : List String) (args : SetupArgs)
deriving DecidableEq

/-- The whole script: root acquisition (lines 34-43) happens first, platform
dispatch (lines 45-51) second, then the descriptor and `setup` call are built.
`blocked` models the prompt loop not exiting within the supplied inputs;
`raised` models the bare `raise` on an unsupported platform. -/
def runScript (env : List (String × String)) (sys : String)
    (fsExists : String → Bool) (inputs : List String) : Outcome :=
  match resolveRoot env fsExists inputs with
  | none => Outcome.blocked
  | some (root, prompts, printed) =>
    match archOf sys with
    | Except.error _ => Outcome.raised prompts printed
    | Except.ok arch => Outcome.done prompts printed (mkSetup root arch)

/-! ### Helper lemmas -/

/-- A nonempty string has nonempty character data. -/
theorem data_ne_nil (s : String) (h : s ≠ "") : s.data ≠ [] := by
  intro hd
  exact h (String.ext hd)

/-- `posixpath.join` inserts exactly one separator between a nonempty path not
ending in `/` and a relative component. -/
theorem pjoin2_plain (path b : String) (h0 : path ≠ "") (h1 : endsSep path = false)
    (h2 : startsSep b = false) : pjoin2 path b = path ++ "/" ++ b := by
  simp [pjoin2, h0, h1, h2]

/-- The one-step join result `path ++ "/" ++ b` is never the empty string. -/
theorem append_mid_ne_nil (root mid : String) : root ++ "/" ++ mid ≠ "" := by
  intro h
  have h2 := congrArg String.data h
  simp [String.data_append] at h2

/-- Appending a nonempty component that does not end in `/` yields a path that
does not end in `/`. -/
theorem endsSep_append_mid (root mid : String) (hm2 : mid ≠ "") (hm1 : endsSep mid = false) :
    endsSep (root ++ "/" ++ mid) = false := by
  unfold endsSep at *
  rw [String.data_append, List.getLast?_append_of_ne_nil _ (data_ne_nil mid hm2)]
  exact hm1

/-- Three-component `posixpath.join` on plain components is separator-interleaved
concatenation. -/
theorem pjoin3_plain (root mid arch : String) (h0 : root ≠ "") (h1 : endsSep root = false)
    (hm0 : startsSep mid = false) (hm1 : endsSep mid = false) (hm2 : mid ≠ "")
    (ha : startsSep arch = false) :
    pjoin3 root mid arch = root ++ "/" ++ mid ++ "/" ++ arch := by
  rw [pjoin3, pjoin2_plain root mid h0 h1 hm0,
    pjoin2_plain _ arch (append_mid_ne_nil root mid) (endsSep_append_mid root mid hm2 hm1) ha]

/-- Joining a relative component keeps the original path as a prefix of the
character data. -/
theorem data_prefix_pjoin2 (path b : String) (hb : startsSep b = false) :
    path.data <+: (pjoin2 path b).data := by
  rw [pjoin2, hb]
  simp only [Bool.false_eq_true, if_false]
  split
  · rw [String.data_append]
    exact ⟨b.data, rfl⟩
  · rw [String.data_append, String.data_append, List.append_assoc]
    exact ⟨_, rfl⟩

/-- Joining two relative components keeps the original path as a prefix. -/
theorem data_prefix_pjoin3 (path b c : String) (hb : startsSep b = false)
    (hc : startsSep c = false) : path.data <+: (pjoin3 path b c).data :=
  (data_prefix_pjoin2 path b hb).trans (data_prefix_pjoin2 (pjoin2 path b) c hc)

/-- The platform dispatch only ever succeeds with one of the two tags. -/
theorem archOf_ok (sys a : String) (h : archOf sys = Except.ok a) :
    a = "i386_linux" ∨ a = "i386_nt" := by
  unfold archOf at h
  split at h
  · exact Or.inl (Except.ok.inj h).symm
  · split at h
    · exact Or.inr (Except.ok.inj h).symm
    · cases h

/-- Neither architecture tag starts with a separator. -/
theorem startsSep_arch (a : String) (h : a = "i386_linux" ∨ a = "i386_nt") :
    startsSep a = false := by
  rcases h with h | h <;> subst h <;> decide

/-- The acquisition loop consults the filesystem only through the existence
oracle at the supplied inputs: oracles agreeing there give identical runs. -/
theorem promptLoop_congr (f g : String → Bool) (inputs : List String)
    (h : ∀ x ∈ inputs, f x = g x) : promptLoop f inputs = promptLoop g inputs := by
  induction inputs with
  | nil => rfl
  | cons y ys ih =>
    have hy : f y = g y := h y (List.mem_cons_self y ys)
    rw [promptLoop, promptLoop, hy, ih (fun x hx => h x (List.mem_cons_of_mem y hx))]

/-- The acquisition loop rejects each non-existing input with one diagnostic
and accepts the first existing one. -/
theorem promptLoop_skips (fsExists : String → Bool) (bad : List String) (good : String)
    (rest : List String) (hbad : ∀ x ∈ bad, fsExists x = false)
    (hgood : fsExists good = true) :
    promptLoop fsExists (bad ++ good :: rest)
      = some (good, List.replicate bad.length "Invalid Path") := by
  induction bad with
  | nil => simp [promptLoop, hgood]
  | cons y ys ih =>
    have hy : fsExists y = false := hbad y (List.mem_cons_self y ys)
    have ih2 := ih (fun x hx => hbad x (List.mem_cons_of_mem y hx))
    simp [promptLoop, hy, ih2, List.replicate_succ]

/-- Inversion for a completed run: the script reached `setup` with some root
and a successfully dispatched architecture tag. -/
theorem runScript_done (env : List (String × String)) (sys : String)
    (fsExists : String → Bool) (inputs : List String) (prompts : Nat)
    (printed : List String) (args : SetupArgs)
    (h : runScript env sys fsExists inputs = Outcome.done prompts printed args) :
    ∃ root arch, archOf sys = Except.ok arch ∧
      resolveRoot env fsExists inputs = some (root, prompts, printed) ∧
      args = mkSetup root arch := by
  unfold runScript at h
  split at h
  · cases h
  · next root pp pr heq =>
    split at h
    · cases h
    · next arch harch =>
      injection h with h1 h2 h3
      exact ⟨root, arch, harch, by rw [heq, h1, h2], h3.symm⟩

/-! ### Claim theorems -/

/-- C1: for every environment in which `ECLIPSEDIR` is bound to a non-empty
value, root resolution returns that value verbatim, issues no prompt and prints
no diagnostic, independently of the filesystem oracle and of any operator
input (so no existence check is performed). -/
theorem c1_eclipsedir_verbatim (env : List (String × String)) (v : String)
    (fsExists : String → Bool) (inputs : List String)
    (hv : env.lookup "ECLIPSEDIR" = some v) (_hne : v ≠ "") :
    resolveRoot env fsExists inputs = some (v, 0, []) := by
  simp [resolveRoot, hv]

/-- C1 witness: `ECLIPSEDIR=/opt/eclipse` with an oracle that rejects every
path and a pending operator input that is never consumed. -/
theorem c1_eclipsedir_verbatim_witness :
    [("ECLIPSEDIR", "/opt/eclipse")].lookup "ECLIPSEDIR" = some "/opt/eclipse" ∧
    ("/opt/eclipse" : String) ≠ "" ∧
    resolveRoot [("ECLIPSEDIR", "/opt/eclipse")] (fun _ => false) ["/x"]
      = some ("/opt/eclipse", 0, []) :=
  ⟨by decide, by decide,
    c1_eclipsedir_verbatim [("ECLIPSEDIR", "/opt/eclipse")] "/opt/eclipse"
      (fun _ => false) ["/x"] (by decide) (by decide)⟩

/-- C2: the platform dispatch maps `Linux` to `i386_linux` and `Windows` to
`i386_nt`; every other identifier fails with the unsupported-platform error,
and such a run never emits a descriptor. -/
theorem c2_arch_dispatch (sys : String) (h1 : sys ≠ "Linux") (h2 : sys ≠ "Windows") :
    archOf "Linux" = Except.ok "i386_linux" ∧
    archOf "Windows" = Except.ok "i386_nt" ∧
    archOf sys = Except.error "Platform not supported" ∧
    ∀ env fsExists inputs prompts printed args,
      runScript env sys fsExists inputs ≠ Outcome.done prompts printed args := by
  refine ⟨rfl, rfl, by simp [archOf, h1, h2], ?_⟩
  intro env fsExists inputs prompts printed args hdone
  obtain ⟨root, arch, harch, -, -⟩ := runScript_done env sys fsExists inputs
    prompts printed args hdone
  rw [show archOf sys = Except.error "Platform not supported" by simp [archOf, h1, h2]] at harch
  cases harch

/-- C2 witness: platform `Darwin` fails and a concrete run emits no
descriptor. -/
theorem c2_arch_dispatch_witness :
    ("Darwin" : String) ≠ "Linux" ∧ ("Darwin" : String) ≠ "Windows" ∧
    archOf "Darwin" = Except.error "Platform not supported" ∧
    runScript [] "Darwin" (fun _ => true) ["/root1"]
      ≠ Outcome.done 1 [] (mkSetup "/root1" "i386_linux") :=
  ⟨by decide, by decide,
    (c2_arch_dispatch "Darwin" (by decide) (by decide)).2.2.1,
    (c2_arch_dispatch "Darwin" (by decide) (by decide)).2.2.2 [] (fun _ => true)
      ["/root1"] 1 [] (mkSetup "/root1" "i386_linux")⟩

/-- C3 counterexample: the interactive loop validates (by existence) the root
`/opt/eclipse/`, which ends in a separator; `os.path.join` then inserts no
second separator, so `include_dirs[0]` differs from the literal concatenation
`root ++ "/include/" ++ arch` required by the claim. -/
theorem c3_join_counterexample :
    runScript [] "Linux" (fun s => s == "/opt/eclipse/") ["/opt/eclipse/"]
      = Outcome.done 1 [] (mkSetup "/opt/eclipse/" "i386_linux") ∧
    (mkExtension "/opt/eclipse/" "i386_linux").include_dirs.head?
      = some "/opt/eclipse/include/i386_linux" ∧
    "/opt/eclipse/include/i386_linux"
      ≠ "/opt/eclipse/" ++ "/include/" ++ "i386_linux" :=
  ⟨by decide, by decide, by decide⟩

/-- C3 amended: for every root that is nonempty and does not end in a
separator, and every resolved architecture tag, `include_dirs[0]` is
`root + "/include/" + arch` and `library_dirs[0]` is `root + "/lib/" + arch`
(in general they are `os.path.join(root, "include"|"lib", arch)`). -/
theorem c3_join_amended (root arch : String) (h0 : root ≠ "") (h1 : endsSep root = false)
    (ha : arch = "i386_linux" ∨ arch = "i386_nt") :
    (mkExtension root arch).include_dirs.head? = some (root ++ "/include/" ++ arch) ∧
    (mkExtension root arch).library_dirs.head? = some (root ++ "/lib/" ++ arch) := by
  have hs := startsSep_arch arch ha
  have hinc := pjoin3_plain root "include" arch h0 h1 (by decide) (by decide) (by decide) hs
  have hlib := pjoin3_plain root "lib" arch h0 h1 (by decide) (by decide) (by decide) hs
  have hd1 : ("/include/" : String).data
      = ("/" : String).data ++ ("include" : String).data ++ ("/" : String).data := by decide
  have hd2 : ("/lib/" : String).data
      = ("/" : String).data ++ ("lib" : String).data ++ ("/" : String).data := by decide
  refine ⟨?_, ?_⟩ <;> simp only [mkExtension, List.head?_cons, Option.some.injEq]
  · rw [hinc]
    apply String.ext
    simp [String.data_append, hd1]
  · rw [hlib]
    apply String.ext
    simp [String.data_append, hd2]

/-- C3 amended witness: root `/opt/eclipse` with the Linux tag. -/
theorem c3_join_amended_witness :
    ("/opt/eclipse" : String) ≠ "" ∧ endsSep "/opt/eclipse" = false ∧
    (("i386_linux" : String) = "i386_linux" ∨ ("i386_linux" : String) = "i386_nt") ∧
    (mkExtension "/opt/eclipse" "i386_linux").include_dirs.head?
      = some ("/opt/eclipse" ++ "/include/" ++ "i386_linux") ∧
    (mkExtension "/opt/eclipse" "i386_linux").library_dirs.head?
      = some ("/opt/eclipse" ++ "/lib/" ++ "i386_linux") :=
  ⟨by decide, by decide, Or.inl rfl,
    c3_join_amended "/opt/eclipse" "i386_linux" (by decide) (by decide) (Or.inl rfl)⟩

/-- C4: every run that emits a descriptor emits exactly the fixed fields:
module name `pyclp.pyclp`, the single source `src/pyclp/pyclp.pyx`, a
two-element include list whose second entry is `src/pyclp/`, libraries
`["eclipse"]`, package root `src` and package list `["pyclp"]`. -/
theorem c4_fixed_fields (env : List (String × String)) (sys : String)
    (fsExists : String → Bool) (inputs : List String) (prompts : Nat)
    (printed : List String) (args : SetupArgs)
    (h : runScript env sys fsExists inputs = Outcome.done prompts printed args) :
    args.package_dir = "src" ∧ args.packages = ["pyclp"] ∧
    ∃ e, args.ext_modules = [e] ∧ e.name = "pyclp.pyclp" ∧
      e.sources = ["src/pyclp/pyclp.pyx"] ∧ e.libraries = ["eclipse"] ∧
      e.include_dirs.length = 2 ∧ e.include_dirs[1]? = some "src/pyclp/" := by
  obtain ⟨root, arch, -, -, hargs⟩ := runScript_done env sys fsExists inputs
    prompts printed args h
  subst hargs
  exact ⟨rfl, rfl, mkExtension root arch, rfl, rfl, rfl, rfl, rfl, rfl⟩

/-- C4 witness: a concrete completed run with `ECLIPSEDIR=/opt/eclipse` on
Linux. -/
theorem c4_fixed_fields_witness :
    runScript [("ECLIPSEDIR", "/opt/eclipse")] "Linux" (fun _ => false) []
      = Outcome.done 0 [] (mkSetup "/opt/eclipse" "i386_linux") ∧
    ((mkSetup "/opt/eclipse" "i386_linux").package_dir = "src" ∧
     (mkSetup "/opt/eclipse" "i386_linux").packages = ["pyclp"] ∧
     ∃ e, (mkSetup "/opt/eclipse" "i386_linux").ext_modules = [e] ∧
       e.name = "pyclp.pyclp" ∧ e.sources = ["src/pyclp/pyclp.pyx"] ∧
       e.libraries = ["eclipse"] ∧ e.include_dirs.length = 2 ∧
       e.include_dirs[1]? = some "src/pyclp/") :=
  ⟨by decide,
    c4_fixed_fields [("ECLIPSEDIR", "/opt/eclipse")] "Linux" (fun _ => false) []
      0 [] (mkSetup "/opt/eclipse" "i386_linux") (by decide)⟩

/-- C5: with `ECLIPSEDIR` absent, the loop returns the first supplied path the
oracle accepts, printing exactly one `Invalid Path` diagnostic per rejected
path before it (and one prompt per consumed input). -/
theorem c5_prompt_loop (fsExists : String → Bool) (bad : List String) (good : String)
    (rest : List String) (hbad : ∀ x ∈ bad, fsExists x = false)
    (hgood : fsExists good = true) :
    resolveRoot [] fsExists (bad ++ good :: rest)
      = some (good, bad.length + 1, List.replicate bad.length "Invalid Path") := by
  have hp := promptLoop_skips fsExists bad good rest hbad hgood
  simp [resolveRoot, hp]

/-- C5 witness: the scenario of the claim, inputs
`["/nonexistent", "/opt/eclipse"]` where only the latter exists: one
`Invalid Path` diagnostic, then `/opt/eclipse` is returned. -/
theorem c5_prompt_loop_witness :
    (∀ x ∈ ["/nonexistent"], (fun s => s == "/opt/eclipse") x = false) ∧
    (fun s => s == "/opt/eclipse") "/opt/eclipse" = true ∧
    resolveRoot [] (fun s => s == "/opt/eclipse") ["/nonexistent", "/opt/eclipse"]
      = some ("/opt/eclipse", 2, ["Invalid Path"]) :=
  ⟨by decide, by decide,
    c5_prompt_loop (fun s => s == "/opt/eclipse") ["/nonexistent"] "/opt/eclipse" []
      (by decide) (by decide)⟩

/-- C6 counterexample: a completed run with the validated root `/opt/eclipse`
whose descriptor contains the include directory `src/pyclp/`, which is not a
subpath of the root (nor of the root joined with the architecture tag). -/
theorem c6_subpath_counterexample :
    runScript [] "Linux" (fun s => s == "/opt/eclipse") ["/opt/eclipse"]
      = Outcome.done 1 [] (mkSetup "/opt/eclipse" "i386_linux") ∧
    (mkExtension "/opt/eclipse" "i386_linux").include_dirs[1]? = some "src/pyclp/" ∧
    ¬ ("/opt/eclipse".data <+: "src/pyclp/".data) ∧
    ¬ ((pjoin2 "/opt/eclipse" "i386_linux").data <+: "src/pyclp/".data) :=
  ⟨by decide, by decide, by decide, by decide⟩

/-- C6 amended: in every emitted descriptor, `include_dirs[0]` and
`library_dirs[0]` extend the resolved installation root (they are
`os.path.join(root, "include"|"lib", arch)` and keep the root as a prefix of
their character data); `include_dirs[1]` however is the fixed local source
directory `src/pyclp/`, and the root itself is validated only when acquired
interactively, not when taken from `ECLIPSEDIR`. -/
theorem c6_subpath_amended (env : List (String × String)) (sys : String)
    (fsExists : String → Bool) (inputs : List String) (prompts : Nat)
    (printed : List String) (args : SetupArgs)
    (h : runScript env sys fsExists inputs = Outcome.done prompts printed args) :
    ∃ root arch, (arch = "i386_linux" ∨ arch = "i386_nt") ∧ args = mkSetup root arch ∧
      (mkExtension root arch).include_dirs
        = [pjoin3 root "include" arch, "src/pyclp/"] ∧
      (mkExtension root arch).library_dirs = [pjoin3 root "lib" arch] ∧
      root.data <+: (pjoin3 root "include" arch).data ∧
      root.data <+: (pjoin3 root "lib" arch).data := by
  obtain ⟨root, arch, harch, -, hargs⟩ := runScript_done env sys fsExists inputs
    prompts printed args h
  have ha := archOf_ok sys arch harch
  have hs := startsSep_arch arch ha
  exact ⟨root, arch, ha, hargs, rfl, rfl,
    data_prefix_pjoin3 root "include" arch (by decide) hs,
    data_prefix_pjoin3 root "lib" arch (by decide) hs⟩

/-- C6 amended witness: a concrete completed run on Windows with
`ECLIPSEDIR=/opt/e`. -/
theorem c6_subpath_amended_witness :
    runScript [("ECLIPSEDIR", "/opt/e")] "Windows" (fun _ => false) []
      = Outcome.done 0 [] (mkSetup "/opt/e" "i386_nt") ∧
    (∃ root arch, (arch = "i386_linux" ∨ arch = "i386_nt") ∧
      mkSetup "/opt/e" "i386_nt" = mkSetup root arch ∧
      (mkExtension root arch).include_dirs
        = [pjoin3 root "include" arch, "src/pyclp/"] ∧
      (mkExtension root arch).library_dirs = [pjoin3 root "lib" arch] ∧
      root.data <+: (pjoin3 root "include" arch).data ∧
      root.data <+: (pjoin3 root "lib" arch).data) :=
  ⟨by decide,
    c6_subpath_amended [("ECLIPSEDIR", "/opt/e")] "Windows" (fun _ => false) []
      0 [] (mkSetup "/opt/e" "i386_nt") (by decide)⟩

/-- C7 counterexample: with the empty environment and platform `Darwin`, the
run does fail with the unsupported-platform error, but only after one
interactive prompt was issued (the script acquires the root first), not with
zero prompts as the claim requires. -/
theorem c7_order_counterexample :
    runScript [] "Darwin" (fun s => s == "/opt/eclipse") ["/opt/eclipse"]
      = Outcome.raised 1 [] ∧ (1 : Nat) ≠ 0 :=
  ⟨by decide, by decide⟩

/-- C7 amended: with the empty environment and an unsupported platform,
resolution fails with the unsupported-platform error only after the
interactive acquisition loop completes: at least one prompt is issued, since
root acquisition precedes platform detection in the script. -/
theorem c7_order_amended (sys : String) (fsExists : String → Bool) (inputs : List String)
    (root : String) (printed : List String)
    (h1 : sys ≠ "Linux") (h2 : sys ≠ "Windows")
    (h3 : promptLoop fsExists inputs = some (root, printed)) :
    runScript [] sys fsExists inputs = Outcome.raised (printed.length + 1) printed ∧
    0 < printed.length + 1 := by
  constructor
  · have hr : resolveRoot [] fsExists inputs = some (root, printed.length + 1, printed) := by
      simp [resolveRoot, h3]
    unfold runScript
    rw [hr]
    simp [archOf, h1, h2]
  · exact Nat.succ_pos _

/-- C7 amended witness: platform `Darwin`, one operator input accepted. -/
theorem c7_order_amended_witness :
    ("Darwin" : String) ≠ "Linux" ∧ ("Darwin" : String) ≠ "Windows" ∧
    promptLoop (fun s => s == "/r") ["/r"] = some ("/r", []) ∧
    (runScript [] "Darwin" (fun s => s == "/r") ["/r"] = Outcome.raised 1 [] ∧
      0 < 1) :=
  ⟨by decide, by decide, by decide,
    c7_order_amended "Darwin" (fun s => s == "/r") ["/r"] "/r" []
      (by decide) (by decide) (by decide)⟩

/-- C8: descriptor construction is deterministic and idempotent: identical
inputs (the module name and source list are fixed literals in the script, so
the inputs are the root and the architecture tag) yield structurally equal
descriptors and setup arguments. -/
theorem c8_deterministic (root arch root2 arch2 : String)
    (hr : root = root2) (ha : arch = arch2) :
    mkExtension root arch = mkExtension root2 arch2 ∧
    mkSetup root arch = mkSetup root2 arch2 := by
  subst hr
  subst ha
  exact ⟨rfl, rfl⟩

/-- C8 witness: two invocations on the same concrete inputs coincide. -/
theorem c8_deterministic_witness :
    ("/opt/eclipse" : String) = "/opt/eclipse" ∧
    (mkExtension "/opt/eclipse" "i386_linux" = mkExtension "/opt/eclipse" "i386_linux" ∧
     mkSetup "/opt/eclipse" "i386_linux" = mkSetup "/opt/eclipse" "i386_linux") :=
  ⟨rfl, c8_deterministic "/opt/eclipse" "i386_linux" "/opt/eclipse" "i386_linux" rfl rfl⟩

/-- C9: when `ECLIPSEDIR` is present but empty, the empty string is used as
the root with no prompt, no diagnostic and no validation (the oracle and the
inputs are irrelevant), and the derived include and library paths degenerate
to the relative paths `include/<arch>` and `lib/<arch>`: key presence, not
non-emptiness, decides whether prompting occurs. -/
theorem c9_empty_value (env : List (String × String)) (fsExists : String → Bool)
    (inputs : List String) (hv : env.lookup "ECLIPSEDIR" = some "") :
    resolveRoot env fsExists inputs = some ("", 0, []) ∧
    (mkExtension "" "i386_linux").include_dirs.head? = some "include/i386_linux" ∧
    (mkExtension "" "i386_linux").library_dirs = ["lib/i386_linux"] ∧
    (mkExtension "" "i386_nt").include_dirs.head? = some "include/i386_nt" ∧
    (mkExtension "" "i386_nt").library_dirs = ["lib/i386_nt"] ∧
    startsSep "include/i386_linux" = false ∧ startsSep "lib/i386_linux" = false :=
  ⟨by simp [resolveRoot, hv], by decide, by decide, by decide, by decide,
    by decide, by decide⟩

/-- C9 witness: the environment binding `ECLIPSEDIR` to the empty string. -/
theorem c9_empty_value_witness :
    [("ECLIPSEDIR", "")].lookup "ECLIPSEDIR" = some "" ∧
    (resolveRoot [("ECLIPSEDIR", "")] (fun _ => false) ["/x"] = some ("", 0, []) ∧
     (mkExtension "" "i386_linux").include_dirs.head? = some "include/i386_linux" ∧
     (mkExtension "" "i386_linux").library_dirs = ["lib/i386_linux"] ∧
     (mkExtension "" "i386_nt").include_dirs.head? = some "include/i386_nt" ∧
     (mkExtension "" "i386_nt").library_dirs = ["lib/i386_nt"] ∧
     startsSep "include/i386_linux" = false ∧ startsSep "lib/i386_linux" = false) :=
  ⟨by decide,
    c9_empty_value [("ECLIPSEDIR", "")] (fun _ => false) ["/x"] (by decide)⟩

/-- C10: the acquisition loop accepts any supplied path the existence oracle
approves, immediately and with no further condition; the run depends on the
filesystem only through the oracle's verdict on the supplied inputs (the
script calls nothing but `os.path.exists`, so no directory-ness or
include/lib-subtree check can influence acceptance). -/
theorem c10_existence_only (fsExists fs2 : String → Bool) (p : String)
    (rest inputs : List String) (hp : fsExists p = true)
    (hagree : ∀ x ∈ inputs, fsExists x = fs2 x) :
    promptLoop fsExists (p :: rest) = some (p, []) ∧
    promptLoop fsExists inputs = promptLoop fs2 inputs :=
  ⟨by simp [promptLoop, hp], promptLoop_congr fsExists fs2 inputs hagree⟩

/-- C10 witness: a relative file path is accepted; two oracles agreeing on the
supplied inputs produce the same loop behaviour. -/
theorem c10_existence_only_witness :
    (fun s => s == "file.txt") "file.txt" = true ∧
    (∀ x ∈ ["/a"], (fun s => s == "file.txt") x = (fun s => s == "/a/b") x) ∧
    (promptLoop (fun s => s == "file.txt") ["file.txt", "/other"]
        = some ("file.txt", []) ∧
     promptLoop (fun s => s == "file.txt") ["/a"]
        = promptLoop (fun s => s == "/a/b") ["/a"]) :=
  ⟨by decide, by decide,
    c10_existence_only (fun s => s == "file.txt") (fun s => s == "/a/b") "file.txt"
      ["/other"] ["/a"] (by decide) (by decide)⟩

end PyCLP
